import Mathlib

/-!
Verification of the repository-artifact acquisition core and the JSON
configuration scanner.

The JSON scanner (`Scanner`, `initRegoScanner`, `scanRego`) is embedded
directly from the source file. The repository-artifact core (`newURL`,
`NewArtifact`, `Inspect`, the cleanup handle) is present in the repository
only through its test file; its behaviour is modelled from the
specification, and each such definition is marked accordingly in its doc
comment.
-/

namespace RepoArtifact

/-! ## Reference normalizer -/

/-- Characters allowed in a URL scheme after the leading letter. -/
def isSchemeChar (c : Char) : Bool :=
  c.isAlpha || c.isDigit || c = '+' || c = '-' || c = '.'

/-- A non-empty character sequence is a valid URL scheme when it starts
with a letter and continues with scheme characters. -/
def isValidScheme : List Char → Bool
  | [] => false
  | c :: cs => c.isAlpha && cs.all isSchemeChar

/-- The characters of a raw reference before the first colon. -/
def beforeColon (l : List Char) : List Char :=
  l.takeWhile (fun c => decide (c ≠ ':'))

/-- Whether a raw reference string carries an explicit scheme: it
contains a colon and the part before the first colon is a valid scheme. -/
def hasValidScheme (l : List Char) : Bool :=
  l.contains ':' && isValidScheme (beforeColon l)

/-- The first path segment of a raw reference: the characters before the
first slash. -/
def firstPathSegment (l : List Char) : List Char :=
  l.takeWhile (fun c => decide (c ≠ '/'))

/-- Modelled from the spec: the URL parser behaviour of the missing
normalizer code. The only parse failure the specification names is a
scheme-less string whose first path segment contains a colon; every
schemed string, and every scheme-less string without that ambiguity,
parses successfully. -/
def urlParses (s : String) : Bool :=
  hasValidScheme s.data || !((firstPathSegment s.data).contains ':')

/-- The default secure scheme the normalizer prepends. -/
def defaultScheme : String := "https://"

/-- Modelled from the spec: the missing reference normalizer `newURL`.
A string with an explicit scheme is accepted as already canonical. A
scheme-less string whose first path segment contains a colon is rejected
with the colon ambiguity error. Any other scheme-less string is
canonicalized by prepending the default secure scheme. -/
def newURL (rawurl : String) : Except String String :=
  if hasValidScheme rawurl.data then
    .ok rawurl
  else if (firstPathSegment rawurl.data).contains ':' then
    .error "url parse error: first path segment in URL cannot contain colon"
  else
    .ok (defaultScheme ++ rawurl)

/-- Prepending the default secure scheme yields a string whose part
before the first colon is exactly the scheme name. -/
theorem beforeColon_defaultScheme (l : List Char) :
    beforeColon ("https://".data ++ l) = "https".data := rfl

/-- Prepending the default secure scheme yields a string that carries a
valid explicit scheme. -/
theorem hasValidScheme_defaultScheme (s : String) :
    hasValidScheme (defaultScheme ++ s).data = true := by
  have hd : (defaultScheme ++ s).data = "https://".data ++ s.data :=
    String.data_append _ _
  rw [hasValidScheme, hd, beforeColon_defaultScheme]
  rfl

/-! ## Working trees and the identity computer -/

/-- A file of a materialized working tree: a path and its byte contents. -/
structure TreeFile where
  path : String
  contents : List Nat
deriving DecidableEq

/-- A working tree is the finite collection of files it holds, listed in
whatever order the filesystem enumerates them. -/
abbrev WorkingTree := List TreeFile

/-- Modelled from the spec: the serialization of one file fed to the
digest, separating the path from the contents with a value no path
character can take. -/
def encodeFile (f : TreeFile) : List Nat :=
  f.path.data.map Char.toNat ++ 4294967296 :: f.contents

/-- Boolean comparison realizing the lexicographic linear order on
encoded files, used to make enumeration order canonical. -/
def lexLe (a b : List Nat) : Bool :=
  decide (a ≤ b)

/-- Modelled from the spec: deterministic enumeration of the tree
content, stable under filesystem iteration order, obtained by sorting
the encoded files. -/
def enumerate (t : WorkingTree) : List (List Nat) :=
  (t.map encodeFile).mergeSort lexLe

/-- Concatenation of the enumerated encodings into a single byte stream. -/
def flattenAll (ls : List (List Nat)) : List Nat :=
  ls.foldr (fun a b => a ++ b) []

/-- Modelled from the spec: a deterministic stand-in for the
cryptographic digest of a byte stream. The claims under verification
depend only on the digest being a pure function of its input. -/
def digestNat (bs : List Nat) : Nat :=
  bs.foldl (fun h b => (h * 131 + b + 1) % 18446744073709551616) 5381

/-- Modelled from the spec: the content identity of a working tree, a
digest of the deterministic enumeration, tagged with the hash family
name. -/
def contentIdentity (t : WorkingTree) : String :=
  "sha256:" ++ toString (digestNat (flattenAll (enumerate t)))

theorem lexLe_trans (a b c : List Nat) (hab : lexLe a b = true)
    (hbc : lexLe b c = true) : lexLe a c = true :=
  decide_eq_true (le_trans (of_decide_eq_true hab) (of_decide_eq_true hbc))

theorem lexLe_total (a b : List Nat) : (lexLe a b || lexLe b a) = true := by
  rcases le_total a b with h | h
  · simp [lexLe, h]
  · simp [lexLe, h]

/-- The canonical enumeration is invariant under reordering of the
files of the tree. -/
theorem enumerate_perm_eq (t₁ t₂ : WorkingTree) (h : t₁.Perm t₂) :
    enumerate t₁ = enumerate t₂ := by
  have hm : (t₁.map encodeFile).Perm (t₂.map encodeFile) := h.map _
  have hp : ((t₁.map encodeFile).mergeSort lexLe).Perm
      ((t₂.map encodeFile).mergeSort lexLe) :=
    ((List.mergeSort_perm _ _).trans hm).trans (List.mergeSort_perm _ _).symm
  have hs₁ := List.sorted_mergeSort lexLe_trans lexLe_total (t₁.map encodeFile)
  have hs₂ := List.sorted_mergeSort lexLe_trans lexLe_total (t₂.map encodeFile)
  exact List.eq_of_perm_of_sorted hp
    (hs₁.imp fun hab => of_decide_eq_true hab)
    (hs₂.imp fun hab => of_decide_eq_true hab)

/-- The content identity is invariant under reordering of the files of
the tree. -/
theorem contentIdentity_perm (t₁ t₂ : WorkingTree) (h : t₁.Perm t₂) :
    contentIdentity t₁ = contentIdentity t₂ := by
  unfold contentIdentity
  rw [enumerate_perm_eq t₁ t₂ h]

/-! ## Acquisition engine, lifecycle manager, artifact facade -/

/-- A remote repository as the acquisition engine observes it: which
branch names, tag names and commit hashes exist, and the tree its
checkout materializes. -/
structure Remote where
  branches : List String
  tags : List String
  commits : List String
  tree : WorkingTree
deriving DecidableEq

/-- The environment an acquisition runs in: existing local directories
with their content, reachable remotes keyed by canonical URL, the
temporary directories currently on disk, and a counter from which the
next temporary directory name is drawn. -/
structure World where
  locals : List (String × WorkingTree)
  remotes : List (String × Remote)
  fsTemps : List String
  nextTemp : Nat
deriving DecidableEq

/-- The error classes acquisition can surface, as the tests in the
repository classify them by substring. -/
inductive AcqError
  | urlParseError (msg : String)
  | repoNotFound
  | refNotFound (refPath : String)
  | checkoutObjectNotFound
deriving DecidableEq

/-- Ownership of the working tree: a local directory is borrowed and
never deleted, a cloned tree lives in an owned temporary directory. -/
inductive Ownership
  | borrowed (dir : String)
  | owned (tempDir : String)
deriving DecidableEq

/-- A constructed repository artifact: the original raw reference
string, the materialized tree, and who owns the directory holding it. -/
structure Artifact where
  name : String
  tree : WorkingTree
  ownership : Ownership
deriving DecidableEq

/-- The ref selector and progress options accepted by acquisition; an
empty string means the selector is unset. -/
structure RepoOption where
  noProgress : Bool
  repoBranch : String
  repoTag : String
  repoCommit : String
deriving DecidableEq

/-- Modelled from the spec: a cleanup handle is the list of owned
temporary directories it releases; the empty list is the no-op handle. -/
abbrev CleanupHandle := List String

/-- Modelled from the spec: invoking a cleanup handle removes every
directory it owns from the filesystem state; removing a directory that
is not present is harmless. -/
def runCleanup (h : CleanupHandle) (fs : List String) : List String :=
  fs.filter (fun d => !(h.contains d))

/-- The name of the next temporary directory the engine would create. -/
def tempName (w : World) : String :=
  "repo-tmp-" ++ toString w.nextTemp

/-- The outcome of one construction attempt: the artifact or the error,
the cleanup handle returned alongside it, and the world after the
attempt. -/
structure AcqResult where
  result : Except AcqError Artifact
  cleanup : CleanupHandle
  world : World

/-- Modelled from the spec: the missing NewArtifact construction. A
reference naming an existing local directory is used in place with a
no-op cleanup handle. Otherwise the reference is normalized; a
normalization failure is reported before any temporary resource exists.
For a remote reference a fresh temporary directory is created and the
clone is attempted: an unknown remote fails with the repository-not-found
class, an absent branch or tag selector fails naming the expected
refs/heads or refs/tags path, an absent commit selector fails with the
checkout-object-not-found class after the clone succeeded, and on every
one of these paths the handle still owns the temporary directory. -/
def NewArtifact (target : String) (opt : RepoOption) (w : World) : AcqResult :=
  match w.locals.lookup target with
  | some tree =>
      { result := .ok { name := target, tree := tree, ownership := .borrowed target },
        cleanup := [],
        world := w }
  | none =>
      match newURL target with
      | .error e =>
          { result := .error (.urlParseError e), cleanup := [], world := w }
      | .ok u =>
          let tmp := tempName w
          let w1 : World :=
            { locals := w.locals, remotes := w.remotes,
              fsTemps := w.fsTemps ++ [tmp], nextTemp := w.nextTemp + 1 }
          match w.remotes.lookup u with
          | none =>
              { result := .error .repoNotFound, cleanup := [tmp], world := w1 }
          | some r =>
              if opt.repoBranch ≠ "" then
                if r.branches.contains opt.repoBranch then
                  { result := .ok { name := target, tree := r.tree, ownership := .owned tmp },
                    cleanup := [tmp], world := w1 }
                else
                  { result := .error (.refNotFound ("refs/heads/" ++ opt.repoBranch)),
                    cleanup := [tmp], world := w1 }
              else if opt.repoTag ≠ "" then
                if r.tags.contains opt.repoTag then
                  { result := .ok { name := target, tree := r.tree, ownership := .owned tmp },
                    cleanup := [tmp], world := w1 }
                else
                  { result := .error (.refNotFound ("refs/tags/" ++ opt.repoTag)),
                    cleanup := [tmp], world := w1 }
              else if opt.repoCommit ≠ "" then
                if r.commits.contains opt.repoCommit then
                  { result := .ok { name := target, tree := r.tree, ownership := .owned tmp },
                    cleanup := [tmp], world := w1 }
                else
                  { result := .error .checkoutObjectNotFound,
                    cleanup := [tmp], world := w1 }
              else
                { result := .ok { name := target, tree := r.tree, ownership := .owned tmp },
                  cleanup := [tmp], world := w1 }

/-- The artifact type tags of the output record. -/
inductive ArtifactType
  | repository
  | image
  | filesystem
deriving DecidableEq

/-- The output record of an inspection: name, type tag, content
identity, and the constituent content identifiers. -/
structure Reference where
  name : String
  type : ArtifactType
  id : String
  blobIDs : List String
deriving DecidableEq

/-- Modelled from the spec: the missing Inspect operation. It walks the
working tree, computes the content identity, and reports the original
raw reference as the name, the repository type tag, and the identity as
the single constituent content identifier. -/
def Inspect (a : Artifact) : Reference :=
  { name := a.name, type := .repository, id := contentIdentity a.tree,
    blobIDs := [contentIdentity a.tree] }

end RepoArtifact

namespace JsonScanner

/-! ## The JSON scanner, embedded from the source file -/

/-- An opaque identifier standing for a source filesystem argument. -/
abbrev FSys := Nat

/-- The rego scanner as the JSON scanner observes it: the source type it
was constructed for and the filesystem its policies were loaded from. -/
structure RegoScanner where
  source : String
  loadedFrom : FSys
deriving DecidableEq

/-- The mutable state of the JSON scanner relevant to rego scanner
initialization: the cached rego scanner if one was stored, and how many
times policies have been loaded. -/
structure ScannerState where
  regoScanner : Option RegoScanner
  loadCount : Nat
deriving DecidableEq

/-- Embedded from the source: initRegoScanner takes the lock, returns
the stored rego scanner when one exists, and otherwise constructs a new
rego scanner for the JSON source, loads policies from the given source
filesystem, stores it and returns it. The loadOK argument models whether
LoadPolicies succeeds on the given filesystem. -/
def initRegoScanner (loadOK : FSys → Bool) (srcFS : FSys) (s : ScannerState) :
    Except String (RegoScanner × ScannerState) :=
  match s.regoScanner with
  | some rs => .ok (rs, s)
  | none =>
      if loadOK srcFS then
        let rs : RegoScanner := { source := "json", loadedFrom := srcFS }
        .ok (rs, { regoScanner := some rs, loadCount := s.loadCount + 1 })
      else
        .error "load policies error"

/-- Embedded from the source: scanRego initializes the rego scanner and
scans the inputs with it; the first component of the result records
which filesystem the policies that produced the results were loaded
from. -/
def scanRego (loadOK : FSys → Bool) (srcFS : FSys) (s : ScannerState) :
    Except String (FSys × ScannerState) :=
  match initRegoScanner loadOK srcFS s with
  | .error e => .error e
  | .ok (rs, s1) => .ok (rs.loadedFrom, s1)

/-- Embedded from the source: ScanFile parses one file and delegates to
scanRego with the given filesystem; parseOK models whether ParseFile
succeeds. -/
def ScanFile (parseOK : Bool) (loadOK : FSys → Bool) (fsys : FSys)
    (s : ScannerState) : Except String (FSys × ScannerState) :=
  if parseOK then scanRego loadOK fsys s else .error "parse error"

/-- Embedded from the source: ScanFS parses the filesystem, returns no
results when no files parsed, and otherwise delegates to scanRego with
the given filesystem; the parsed argument models the outcome of
ParseFS. -/
def ScanFS (parsed : Option (List String)) (loadOK : FSys → Bool)
    (fsys : FSys) (s : ScannerState) :
    Except String (Option (FSys × ScannerState)) :=
  match parsed with
  | none => .error "parse error"
  | some [] => .ok none
  | some (_ :: _) =>
      match scanRego loadOK fsys s with
      | .error e => .error e
      | .ok p => .ok (some p)

end JsonScanner

namespace RepoArtifact

/-! ## Claims about the reference normalizer -/

/-- C6: a scheme-less input whose first path segment contains a colon is
rejected by newURL with the colon ambiguity error rather than silently
resolved. -/
theorem newURL_schemeless_colon_error (s : String)
    (h1 : hasValidScheme s.data = false)
    (h2 : (firstPathSegment s.data).contains ':' = true) :
    newURL s =
      .error "url parse error: first path segment in URL cannot contain colon" := by
  have h2m : ':' ∈ firstPathSegment s.data := by simpa using h2
  simp [newURL, h1, h2m]

theorem newURL_schemeless_colon_error_witness :
    hasValidScheme "ht tp://foo.com".data = false ∧
    (firstPathSegment "ht tp://foo.com".data).contains ':' = true ∧
    newURL "ht tp://foo.com" =
      .error "url parse error: first path segment in URL cannot contain colon" :=
  ⟨rfl, rfl, newURL_schemeless_colon_error "ht tp://foo.com" rfl rfl⟩

/-- C7: a scheme-less input whose first path segment contains no colon
is canonicalized by prepending the default secure scheme, and the
canonical form parses successfully as a URL. -/
theorem newURL_schemeless_default (s : String)
    (h1 : hasValidScheme s.data = false)
    (h2 : (firstPathSegment s.data).contains ':' = false) :
    newURL s = .ok (defaultScheme ++ s) ∧
    urlParses (defaultScheme ++ s) = true := by
  constructor
  · have h2m : ':' ∉ firstPathSegment s.data := by simpa using h2
    simp [newURL, h1, h2m]
  · unfold urlParses
    rw [hasValidScheme_defaultScheme]
    rfl

theorem newURL_schemeless_default_witness :
    hasValidScheme "github.com/aquasecurity/fanal".data = false ∧
    (firstPathSegment "github.com/aquasecurity/fanal".data).contains ':' = false ∧
    (newURL "github.com/aquasecurity/fanal" =
        .ok (defaultScheme ++ "github.com/aquasecurity/fanal") ∧
      urlParses (defaultScheme ++ "github.com/aquasecurity/fanal") = true) ∧
    defaultScheme ++ "github.com/aquasecurity/fanal" =
      "https://github.com/aquasecurity/fanal" :=
  ⟨rfl, rfl, newURL_schemeless_default "github.com/aquasecurity/fanal" rfl rfl,
    by decide⟩

/-! ## Claims about acquisition, identity and lifecycle -/

/-- C1: two acquisitions that materialize identical repository content
receive byte-for-byte equal content identities from Inspect, whatever
their raw reference names, their ownership (borrowed local directory or
owned temporary clone directory), and the order the filesystem
enumerates their files in. -/
theorem inspect_identity_pure (a₁ a₂ : Artifact) (h : a₁.tree.Perm a₂.tree) :
    (Inspect a₁).id = (Inspect a₂).id ∧
    (Inspect a₁).blobIDs = (Inspect a₂).blobIDs := by
  have hid := contentIdentity_perm a₁.tree a₂.tree h
  exact ⟨by simp [Inspect, hid], by simp [Inspect, hid]⟩

theorem inspect_identity_pure_witness :
    (([⟨"a.json", [1, 2]⟩, ⟨"b.json", [3]⟩] : WorkingTree)).Perm
        [⟨"b.json", [3]⟩, ⟨"a.json", [1, 2]⟩] ∧
    ((Inspect ⟨"https://example.com/r.git",
          [⟨"a.json", [1, 2]⟩, ⟨"b.json", [3]⟩], .owned "repo-tmp-0"⟩).id =
        (Inspect ⟨"testdata",
          [⟨"b.json", [3]⟩, ⟨"a.json", [1, 2]⟩], .borrowed "testdata"⟩).id ∧
      (Inspect ⟨"https://example.com/r.git",
          [⟨"a.json", [1, 2]⟩, ⟨"b.json", [3]⟩], .owned "repo-tmp-0"⟩).blobIDs =
        (Inspect ⟨"testdata",
          [⟨"b.json", [3]⟩, ⟨"a.json", [1, 2]⟩], .borrowed "testdata"⟩).blobIDs) :=
  ⟨by decide,
    inspect_identity_pure
      ⟨"https://example.com/r.git",
        [⟨"a.json", [1, 2]⟩, ⟨"b.json", [3]⟩], .owned "repo-tmp-0"⟩
      ⟨"testdata",
        [⟨"b.json", [3]⟩, ⟨"a.json", [1, 2]⟩], .borrowed "testdata"⟩
      (by decide)⟩

/-- C2: every construction attempt, failed ones included, returns a
cleanup handle whose invocation is idempotent, so a second invocation
never fails or double-frees, and the no-op handle returned when no
temporary resource was created leaves the filesystem untouched. -/
theorem newArtifact_cleanup_safe (target : String) (opt : RepoOption)
    (w : World) (fs : List String) :
    runCleanup (NewArtifact target opt w).cleanup
        (runCleanup (NewArtifact target opt w).cleanup fs)
      = runCleanup (NewArtifact target opt w).cleanup fs ∧
    runCleanup [] fs = fs := by
  constructor
  · simp [runCleanup, List.filter_filter]
  · simp [runCleanup]

/-- C3: acquiring a remote reference whose repository does not exist
fails with the repository-not-found error class, the returned handle
owns the temporary directory that was created for the clone, and
invoking the handle removes that directory from the filesystem. -/
theorem newArtifact_repo_not_found (target u : String) (opt : RepoOption)
    (w : World)
    (hl : w.locals.lookup target = none)
    (hu : newURL target = .ok u)
    (hr : w.remotes.lookup u = none) :
    (NewArtifact target opt w).result = .error .repoNotFound ∧
    (NewArtifact target opt w).cleanup = [tempName w] ∧
    tempName w ∈ (NewArtifact target opt w).world.fsTemps ∧
    tempName w ∉ runCleanup (NewArtifact target opt w).cleanup
        (NewArtifact target opt w).world.fsTemps := by
  simp only [NewArtifact, hl, hu, hr]
  refine ⟨trivial, trivial, by simp, ?_⟩
  simp [runCleanup]

theorem newArtifact_repo_not_found_witness :
    (⟨[], [], [], 0⟩ : World).locals.lookup "example.com/unknown.git" = none ∧
    newURL "example.com/unknown.git" =
      .ok (defaultScheme ++ "example.com/unknown.git") ∧
    (⟨[], [], [], 0⟩ : World).remotes.lookup
      (defaultScheme ++ "example.com/unknown.git") = none ∧
    ((NewArtifact "example.com/unknown.git" ⟨false, "", "", ""⟩
          ⟨[], [], [], 0⟩).result = .error .repoNotFound ∧
      (NewArtifact "example.com/unknown.git" ⟨false, "", "", ""⟩
          ⟨[], [], [], 0⟩).cleanup = [tempName ⟨[], [], [], 0⟩] ∧
      tempName ⟨[], [], [], 0⟩ ∈
        (NewArtifact "example.com/unknown.git" ⟨false, "", "", ""⟩
          ⟨[], [], [], 0⟩).world.fsTemps ∧
      tempName ⟨[], [], [], 0⟩ ∉
        runCleanup (NewArtifact "example.com/unknown.git" ⟨false, "", "", ""⟩
            ⟨[], [], [], 0⟩).cleanup
          (NewArtifact "example.com/unknown.git" ⟨false, "", "", ""⟩
            ⟨[], [], [], 0⟩).world.fsTemps) :=
  ⟨rfl, rfl, rfl,
    newArtifact_repo_not_found "example.com/unknown.git"
      (defaultScheme ++ "example.com/unknown.git") ⟨false, "", "", ""⟩
      ⟨[], [], [], 0⟩ rfl rfl rfl⟩

/-- C4: on an existing remote, a branch selector naming an absent branch
fails with the remote-reference-not-found class embedding the
refs/heads path, and a tag selector naming an absent tag fails with the
same class embedding the refs/tags path. -/
theorem newArtifact_ref_not_found (target u b tg : String) (w : World)
    (r : Remote)
    (hl : w.locals.lookup target = none)
    (hu : newURL target = .ok u)
    (hr : w.remotes.lookup u = some r)
    (hb : b ≠ "") (hbm : r.branches.contains b = false)
    (ht : tg ≠ "") (htm : r.tags.contains tg = false) :
    (NewArtifact target ⟨false, b, "", ""⟩ w).result
        = .error (.refNotFound ("refs/heads/" ++ b)) ∧
    (NewArtifact target ⟨false, "", tg, ""⟩ w).result
        = .error (.refNotFound ("refs/tags/" ++ tg)) := by
  have hbm' : b ∉ r.branches := by simpa using hbm
  have htm' : tg ∉ r.tags := by simpa using htm
  constructor
  · simp only [NewArtifact, hl, hu, hr]
    simp [hb, hbm']
  · simp only [NewArtifact, hl, hu, hr]
    simp [ht, htm']

theorem newArtifact_ref_not_found_witness :
    (⟨[], [("https://example.com/test-repo.git",
        ⟨["valid-branch"], ["v1.0.0"], ["deadbeef"], []⟩)], [], 0⟩ : World).locals.lookup
      "example.com/test-repo.git" = none ∧
    newURL "example.com/test-repo.git" =
      .ok (defaultScheme ++ "example.com/test-repo.git") ∧
    (⟨[], [("https://example.com/test-repo.git",
        ⟨["valid-branch"], ["v1.0.0"], ["deadbeef"], []⟩)], [], 0⟩ : World).remotes.lookup
      (defaultScheme ++ "example.com/test-repo.git") =
        some ⟨["valid-branch"], ["v1.0.0"], ["deadbeef"], []⟩ ∧
    "invalid-branch" ≠ "" ∧
    (⟨["valid-branch"], ["v1.0.0"], ["deadbeef"], []⟩ : Remote).branches.contains
      "invalid-branch" = false ∧
    "v1.0.9" ≠ "" ∧
    (⟨["valid-branch"], ["v1.0.0"], ["deadbeef"], []⟩ : Remote).tags.contains
      "v1.0.9" = false ∧
    ((NewArtifact "example.com/test-repo.git" ⟨false, "invalid-branch", "", ""⟩
          ⟨[], [("https://example.com/test-repo.git",
            ⟨["valid-branch"], ["v1.0.0"], ["deadbeef"], []⟩)], [], 0⟩).result
        = .error (.refNotFound ("refs/heads/" ++ "invalid-branch")) ∧
      (NewArtifact "example.com/test-repo.git" ⟨false, "", "v1.0.9", ""⟩
          ⟨[], [("https://example.com/test-repo.git",
            ⟨["valid-branch"], ["v1.0.0"], ["deadbeef"], []⟩)], [], 0⟩).result
        = .error (.refNotFound ("refs/tags/" ++ "v1.0.9"))) :=
  ⟨rfl, rfl, rfl, by decide, rfl, by decide, rfl,
    newArtifact_ref_not_found "example.com/test-repo.git"
      (defaultScheme ++ "example.com/test-repo.git") "invalid-branch" "v1.0.9"
      ⟨[], [("https://example.com/test-repo.git",
        ⟨["valid-branch"], ["v1.0.0"], ["deadbeef"], []⟩)], [], 0⟩
      ⟨["valid-branch"], ["v1.0.0"], ["deadbeef"], []⟩
      rfl rfl rfl (by decide) rfl (by decide) rfl⟩

/-- C5: on an existing remote, a commit selector naming a hash absent
from the cloned history fails with the checkout-object-not-found class,
after the clone itself succeeded and populated the temporary
directory. -/
theorem newArtifact_commit_not_found (target u c : String) (w : World)
    (r : Remote)
    (hl : w.locals.lookup target = none)
    (hu : newURL target = .ok u)
    (hr : w.remotes.lookup u = some r)
    (hc : c ≠ "") (hcm : r.commits.contains c = false) :
    (NewArtifact target ⟨false, "", "", c⟩ w).result
        = .error .checkoutObjectNotFound ∧
    (NewArtifact target ⟨false, "", "", c⟩ w).world.fsTemps
        = w.fsTemps ++ [tempName w] ∧
    (NewArtifact target ⟨false, "", "", c⟩ w).cleanup = [tempName w] := by
  have hcm' : c ∉ r.commits := by simpa using hcm
  simp only [NewArtifact, hl, hu, hr]
  simp [hc, hcm']

theorem newArtifact_commit_not_found_witness :
    (⟨[], [("https://example.com/test-repo.git",
        ⟨["valid-branch"], ["v1.0.0"], ["deadbeef"], []⟩)], [], 0⟩ : World).locals.lookup
      "example.com/test-repo.git" = none ∧
    newURL "example.com/test-repo.git" =
      .ok (defaultScheme ++ "example.com/test-repo.git") ∧
    (⟨[], [("https://example.com/test-repo.git",
        ⟨["valid-branch"], ["v1.0.0"], ["deadbeef"], []⟩)], [], 0⟩ : World).remotes.lookup
      (defaultScheme ++ "example.com/test-repo.git") =
        some ⟨["valid-branch"], ["v1.0.0"], ["deadbeef"], []⟩ ∧
    "6ac152fe2b87cb5e243414df71790a32912e778e" ≠ "" ∧
    (⟨["valid-branch"], ["v1.0.0"], ["deadbeef"], []⟩ : Remote).commits.contains
      "6ac152fe2b87cb5e243414df71790a32912e778e" = false ∧
    ((NewArtifact "example.com/test-repo.git"
          ⟨false, "", "", "6ac152fe2b87cb5e243414df71790a32912e778e"⟩
          ⟨[], [("https://example.com/test-repo.git",
            ⟨["valid-branch"], ["v1.0.0"], ["deadbeef"], []⟩)], [], 0⟩).result
        = .error .checkoutObjectNotFound ∧
      (NewArtifact "example.com/test-repo.git"
          ⟨false, "", "", "6ac152fe2b87cb5e243414df71790a32912e778e"⟩
          ⟨[], [("https://example.com/test-repo.git",
            ⟨["valid-branch"], ["v1.0.0"], ["deadbeef"], []⟩)], [], 0⟩).world.fsTemps
        = [] ++ [tempName ⟨[], [("https://example.com/test-repo.git",
            ⟨["valid-branch"], ["v1.0.0"], ["deadbeef"], []⟩)], [], 0⟩] ∧
      (NewArtifact "example.com/test-repo.git"
          ⟨false, "", "", "6ac152fe2b87cb5e243414df71790a32912e778e"⟩
          ⟨[], [("https://example.com/test-repo.git",
            ⟨["valid-branch"], ["v1.0.0"], ["deadbeef"], []⟩)], [], 0⟩).cleanup
        = [tempName ⟨[], [("https://example.com/test-repo.git",
            ⟨["valid-branch"], ["v1.0.0"], ["deadbeef"], []⟩)], [], 0⟩]) :=
  ⟨rfl, rfl, rfl, by decide, rfl,
    newArtifact_commit_not_found "example.com/test-repo.git"
      (defaultScheme ++ "example.com/test-repo.git")
      "6ac152fe2b87cb5e243414df71790a32912e778e"
      ⟨[], [("https://example.com/test-repo.git",
        ⟨["valid-branch"], ["v1.0.0"], ["deadbeef"], []⟩)], [], 0⟩
      ⟨["valid-branch"], ["v1.0.0"], ["deadbeef"], []⟩
      rfl rfl rfl (by decide) rfl⟩

/-- C9: acquiring a reference that resolves to an existing local
directory uses it in place as the working tree, leaves the world
untouched so no temporary resource is created, and returns the no-op
cleanup handle. -/
theorem newArtifact_local_noop (target : String) (opt : RepoOption)
    (w : World) (tree : WorkingTree)
    (h : w.locals.lookup target = some tree) :
    (NewArtifact target opt w).result
        = .ok ⟨target, tree, .borrowed target⟩ ∧
    (NewArtifact target opt w).world = w ∧
    (NewArtifact target opt w).cleanup = [] ∧
    runCleanup (NewArtifact target opt w).cleanup w.fsTemps = w.fsTemps := by
  simp only [NewArtifact, h]
  simp [runCleanup]

theorem newArtifact_local_noop_witness :
    (⟨[("testdata", [⟨"main.json", [123]⟩])], [], ["other-tmp"], 3⟩ : World).locals.lookup
      "testdata" = some [⟨"main.json", [123]⟩] ∧
    ((NewArtifact "testdata" ⟨false, "", "", ""⟩
          ⟨[("testdata", [⟨"main.json", [123]⟩])], [], ["other-tmp"], 3⟩).result
        = .ok ⟨"testdata", [⟨"main.json", [123]⟩], .borrowed "testdata"⟩ ∧
      (NewArtifact "testdata" ⟨false, "", "", ""⟩
          ⟨[("testdata", [⟨"main.json", [123]⟩])], [], ["other-tmp"], 3⟩).world
        = ⟨[("testdata", [⟨"main.json", [123]⟩])], [], ["other-tmp"], 3⟩ ∧
      (NewArtifact "testdata" ⟨false, "", "", ""⟩
          ⟨[("testdata", [⟨"main.json", [123]⟩])], [], ["other-tmp"], 3⟩).cleanup
        = [] ∧
      runCleanup (NewArtifact "testdata" ⟨false, "", "", ""⟩
          ⟨[("testdata", [⟨"main.json", [123]⟩])], [], ["other-tmp"], 3⟩).cleanup
        ["other-tmp"] = ["other-tmp"]) :=
  ⟨rfl,
    newArtifact_local_noop "testdata" ⟨false, "", "", ""⟩
      ⟨[("testdata", [⟨"main.json", [123]⟩])], [], ["other-tmp"], 3⟩
      [⟨"main.json", [123]⟩] rfl⟩

/-- Every artifact a successful construction returns carries the
original raw reference string as its name. -/
theorem newArtifact_ok_name (target : String) (opt : RepoOption) (w : World)
    (g : Artifact) (h : (NewArtifact target opt w).result = .ok g) :
    g.name = target := by
  unfold NewArtifact at h
  repeat' split at h
  all_goals simp_all
  all_goals (subst h; rfl)

/-- C8: inspecting a successfully acquired artifact reports the
original raw reference string as the name, the repository type tag, and
a content identifier collection holding exactly the content identity. -/
theorem inspect_reference_shape (target : String) (opt : RepoOption)
    (w : World) (g : Artifact)
    (h : (NewArtifact target opt w).result = .ok g) :
    (Inspect g).name = target ∧
    (Inspect g).type = .repository ∧
    (Inspect g).blobIDs = [(Inspect g).id] ∧
    (Inspect g).id = contentIdentity g.tree := by
  have hn := newArtifact_ok_name target opt w g h
  exact ⟨by simp [Inspect, hn], rfl, rfl, rfl⟩

theorem inspect_reference_shape_witness :
    (NewArtifact "testdata" ⟨false, "", "", ""⟩
        ⟨[("testdata", [])], [], [], 0⟩).result
      = .ok ⟨"testdata", [], .borrowed "testdata"⟩ ∧
    ((Inspect ⟨"testdata", [], .borrowed "testdata"⟩).name = "testdata" ∧
      (Inspect ⟨"testdata", [], .borrowed "testdata"⟩).type = .repository ∧
      (Inspect ⟨"testdata", [], .borrowed "testdata"⟩).blobIDs
        = [(Inspect ⟨"testdata", [], .borrowed "testdata"⟩).id] ∧
      (Inspect ⟨"testdata", [], .borrowed "testdata"⟩).id
        = contentIdentity ([] : WorkingTree)) :=
  ⟨rfl,
    inspect_reference_shape "testdata" ⟨false, "", "", ""⟩
      ⟨[("testdata", [])], [], [], 0⟩
      ⟨"testdata", [], .borrowed "testdata"⟩ rfl⟩

end RepoArtifact

namespace JsonScanner

/-! ## Claim about rego scanner initialization -/

/-- C10: once one initRegoScanner call has succeeded, every later call,
with any source filesystem and whatever the policy loading would now
do, returns the stored rego scanner unchanged together with the
unchanged state, so the scans reaching it through scanRego, ScanFile
and ScanFS all reuse the originally loaded policies and ignore the new
filesystem. -/
theorem initRegoScanner_once (loadOK₁ loadOK₂ : FSys → Bool)
    (fs₁ fs₂ : FSys) (s₀ s₁ : ScannerState) (rs : RegoScanner)
    (ps : List String)
    (h : initRegoScanner loadOK₁ fs₁ s₀ = .ok (rs, s₁)) :
    initRegoScanner loadOK₂ fs₂ s₁ = .ok (rs, s₁) ∧
    scanRego loadOK₂ fs₂ s₁ = .ok (rs.loadedFrom, s₁) ∧
    ScanFile true loadOK₂ fs₂ s₁ = .ok (rs.loadedFrom, s₁) ∧
    ScanFS (some ("main.json" :: ps)) loadOK₂ fs₂ s₁
      = .ok (some (rs.loadedFrom, s₁)) := by
  have h1 : s₁.regoScanner = some rs := by
    unfold initRegoScanner at h
    repeat' split at h
    · simp_all
    · simp only [Except.ok.injEq, Prod.mk.injEq] at h
      obtain ⟨ha, hb2⟩ := h
      subst ha
      subst hb2
      rfl
    · simp_all
  refine ⟨?_, ?_, ?_, ?_⟩ <;>
    simp [initRegoScanner, scanRego, ScanFile, ScanFS, h1]

theorem initRegoScanner_once_witness :
    initRegoScanner (fun _ => true) 1 ⟨none, 0⟩
      = .ok (⟨"json", 1⟩, ⟨some ⟨"json", 1⟩, 1⟩) ∧
    (initRegoScanner (fun _ => false) 2 ⟨some ⟨"json", 1⟩, 1⟩
        = .ok (⟨"json", 1⟩, ⟨some ⟨"json", 1⟩, 1⟩) ∧
      scanRego (fun _ => false) 2 ⟨some ⟨"json", 1⟩, 1⟩
        = .ok (1, ⟨some ⟨"json", 1⟩, 1⟩) ∧
      ScanFile true (fun _ => false) 2 ⟨some ⟨"json", 1⟩, 1⟩
        = .ok (1, ⟨some ⟨"json", 1⟩, 1⟩) ∧
      ScanFS (some ("main.json" :: [])) (fun _ => false) 2
          ⟨some ⟨"json", 1⟩, 1⟩
        = .ok (some (1, ⟨some ⟨"json", 1⟩, 1⟩))) :=
  ⟨rfl,
    initRegoScanner_once (fun _ => true) (fun _ => false) 1 2
      ⟨none, 0⟩ ⟨some ⟨"json", 1⟩, 1⟩ ⟨"json", 1⟩ [] rfl⟩

end JsonScanner
